import Mathlib

/-!
Shallow embedding of `generate-icons.py`, a script that draws two PWA icon
images (192 by 192 and 512 by 512) with the PIL `ImageDraw` primitives and
writes them into a fixed output directory.

Modelling conventions:
* Pixel coordinates and sizes are natural numbers; Python `//` on the
  non-negative quantities of this script coincides with `Nat` division, and
  every subtraction in the script is on operands where the minuend dominates,
  so `Nat` subtraction is exact.
* A drawing call is recorded as a `DrawOp`; the image is the fold of the op
  list over an initially transparent canvas, the last op covering a pixel
  determining its color.
* `ImageDraw.ellipse [x0,y0,x1,y1]` with a fill is rasterized by scanlines:
  each pixel row meeting the inscribed ellipse is painted over the real
  horizontal span of the ellipse at that row with both span ends rounded to
  the nearest integer (half up) — the rounding under which PIL ellipses
  touch all four edges of their bounding box; `ellipseCovers` is the
  denominator-cleared integer form of that test.
* `ImageDraw.arc` measures angles clockwise from 3 oclock with the y axis
  pointing down, so the sweep from 0 to 180 degrees is the LOWER half of the
  ellipse; the stroke of width w extends inward from the ellipse boundary,
  and a width of 0 draws nothing.
* The filesystem is a record of created directories, a map from paths to file
  contents, and the console output; `os.makedirs` and `Image.save` may fail
  with an I/O error injected by an environment `FsEnv`, and failures are
  propagated through `Except` exactly as unhandled Python exceptions are.
-/

namespace LiveShoppingIcons

/-- An RGBA color, one byte per channel. -/
structure RGBA where
  r : Nat
  g : Nat
  b : Nat
  a : Nat
deriving DecidableEq, Repr

/-- The accent color of the icons, hex 9333ea in the source. -/
def purple : RGBA := ⟨0x93, 0x33, 0xea, 255⟩

/-- The PIL named color white. -/
def white : RGBA := ⟨255, 255, 255, 255⟩

/-- The transparent background (0, 0, 0, 0) the canvas is created with. -/
def transparentColor : RGBA := ⟨0, 0, 0, 0⟩

/-- One PIL drawing call of the script: an ellipse fill, a rectangle fill, or
an arc stroke with start and stop angles in degrees and a stroke width. -/
inductive DrawOp where
  | ellipse (x0 y0 x1 y1 : Nat) (fill : RGBA)
  | rectangle (x0 y0 x1 y1 : Nat) (fill : RGBA)
  | arc (x0 y0 x1 y1 : Nat) (start stop : Nat) (fill : RGBA) (width : Nat)
deriving DecidableEq, Repr

/-- The fill color of a drawing op. -/
def DrawOp.fillColor : DrawOp → RGBA
  | .ellipse _ _ _ _ c => c
  | .rectangle _ _ _ _ c => c
  | .arc _ _ _ _ _ _ c _ => c

/-- Closed inscribed-ellipse test for the bounding box [x0, y0, x1, y1],
cleared of denominators so it stays in integer arithmetic; used for the
path of the stroked arc. -/
def inEllipse (x0 y0 x1 y1 x y : ℤ) : Bool :=
  decide (((2 * x - (x0 + x1)) * (y1 - y0)) ^ 2
      + ((2 * y - (y0 + y1)) * (x1 - x0)) ^ 2
      ≤ ((x1 - x0) * (y1 - y0)) ^ 2)

/-- Strict interior of the inscribed ellipse, used for the inner boundary of
a stroked arc. -/
def inEllipseInterior (x0 y0 x1 y1 x y : ℤ) : Bool :=
  decide (((2 * x - (x0 + x1)) * (y1 - y0)) ^ 2
      + ((2 * y - (y0 + y1)) * (x1 - x0)) ^ 2
      < ((x1 - x0) * (y1 - y0)) ^ 2)

/-- Pixels painted by a PIL ellipse FILL over box [x0, y0, x1, y1], in the
rounded-scanline model of the rasterizer: for every pixel row y between y0
and y1, the real horizontal span of the ellipse at that row, of half-width
w(y) = rx * sqrt(1 - ((y - cy) / ry)^2), is painted from round(cx - w(y))
to round(cx + w(y)) with round-to-nearest (half up).  This is the rounding
that makes PIL ellipses touch all four edges of their bounding box.  With
A = x1 - x0, B = y1 - y0, q = B^2 - (2 y - y0 - y1)^2, the two span bounds
x <= cx + w + 1/2 and cx - w + 1/2 < x + 1 clear to the integer conditions
below (the left one strict, owing to rounding half up). -/
def ellipseCovers (x0 y0 x1 y1 x y : ℤ) : Bool :=
  decide ((2 * y - (y0 + y1)) ^ 2 ≤ (y1 - y0) ^ 2)
    && (decide ((2 * x - (x0 + x1) - 1) * (y1 - y0) ≤ 0)
        || decide ((2 * x - (x0 + x1) - 1) ^ 2 * (y1 - y0) ^ 2
            ≤ (x1 - x0) ^ 2
              * ((y1 - y0) ^ 2 - (2 * y - (y0 + y1)) ^ 2)))
    && (decide (((x0 + x1) - 2 * x - 1) * (y1 - y0) < 0)
        || decide (((x0 + x1) - 2 * x - 1) ^ 2 * (y1 - y0) ^ 2
            < (x1 - x0) ^ 2
              * ((y1 - y0) ^ 2 - (2 * y - (y0 + y1)) ^ 2)))

/-- Which pixels a drawing op covers.  Rectangles are inclusive of their
bounds as in PIL.  The arc semantics is specialised to the sweep the script
uses, 0 to 180 degrees: with PIL angles measured clockwise from 3 oclock and
y growing downward this is the lower half of the ellipse, stroked inward by
`width`; a width of 0 draws nothing. -/
def coversB : DrawOp → Nat → Nat → Bool
  | .ellipse x0 y0 x1 y1 _, x, y =>
      ellipseCovers x0 y0 x1 y1 x y
  | .rectangle x0 y0 x1 y1 _, x, y =>
      decide (x0 ≤ x ∧ x ≤ x1 ∧ y0 ≤ y ∧ y ≤ y1)
  | .arc x0 y0 x1 y1 start stop _ w, x, y =>
      decide (start = 0) && decide (stop = 180) && decide (0 < w)
        && inEllipse x0 y0 x1 y1 x y
        && decide ((y0 : ℤ) + y1 ≤ 2 * (y : ℤ))
        && !(inEllipseInterior ((x0 : ℤ) + w) ((y0 : ℤ) + w)
              ((x1 : ℤ) - w) ((y1 : ℤ) - w) x y)

/-- Color of pixel (x, y) after replaying a list of drawing ops over the
transparent canvas: the last covering op wins. -/
def pixelAt (ops : List DrawOp) (x y : Nat) : RGBA :=
  ops.foldl (fun c op => if coversB op x y then op.fillColor else c)
    transparentColor

/-! Geometry of `create_icon`, with the variable names of the source. -/

/-- Inset of the white contrast circle: `margin = size // 8`. -/
def margin (size : Nat) : Nat := size / 8

/-- Inset of the smaller purple circle: `margin2 = size // 6`. -/
def margin2 (size : Nat) : Nat := size / 6

/-- `bag_top = size // 3`. -/
def bag_top (size : Nat) : Nat := size / 3

/-- `bag_bottom = size * 2 // 3`. -/
def bag_bottom (size : Nat) : Nat := size * 2 / 3

/-- `bag_left = size // 3`. -/
def bag_left (size : Nat) : Nat := size / 3

/-- `bag_right = size * 2 // 3`. -/
def bag_right (size : Nat) : Nat := size * 2 / 3

/-- `handle_width = size // 8`. -/
def handle_width (size : Nat) : Nat := size / 8

/-- `handle_height = size // 6`. -/
def handle_height (size : Nat) : Nat := size / 6

/-- `handle_left = size // 2 - handle_width`. -/
def handle_left (size : Nat) : Nat := size / 2 - handle_width size

/-- `handle_right = size // 2 + handle_width`. -/
def handle_right (size : Nat) : Nat := size / 2 + handle_width size

/-- `handle_top = bag_top - handle_height // 2`. -/
def handle_top (size : Nat) : Nat := bag_top size - handle_height size / 2

/-- The five drawing calls of `create_icon`, in program order: purple circle
over the full bounds, white circle inset by `margin`, purple circle inset by
`margin2`, white bag rectangle, white handle arc from 0 to 180 degrees with
stroke width `size // 20`. -/
def create_icon_ops (size : Nat) : List DrawOp :=
  [ .ellipse 0 0 size size purple,
    .ellipse (margin size) (margin size) (size - margin size)
      (size - margin size) white,
    .ellipse (margin2 size) (margin2 size) (size - margin2 size)
      (size - margin2 size) purple,
    .rectangle (bag_left size) (bag_top size) (bag_right size)
      (bag_bottom size) white,
    .arc (handle_left size) (handle_top size) (handle_right size)
      (bag_top size + handle_height size / 2) 0 180 white (size / 20) ]

/-- An in-memory image file: dimensions, format tag, and pixel contents. -/
structure Icon where
  width : Nat
  height : Nat
  format : String
  pixel : Nat → Nat → RGBA

/-- The image `create_icon size _` builds: a size by size RGBA canvas,
initially transparent, after replaying the five drawing calls, saved as PNG. -/
def iconImage (size : Nat) : Icon :=
  { width := size
    height := size
    format := "PNG"
    pixel := pixelAt (create_icon_ops size) }

/-! The filesystem and process model. -/

/-- An I/O error with its diagnostic message. -/
structure IoError where
  msg : String
deriving DecidableEq, Repr

/-- Failure injection for the two fallible primitives the script calls:
directory creation and the image save. `none` means the call succeeds. -/
structure FsEnv where
  mkdirErr : Option IoError
  saveErr : String → Option IoError

/-- World state: the set of existing directories, the files by path, and the
console output lines. -/
structure World where
  dirs : List String
  files : String → Option Icon
  out : List String

/-- `img.save(output_path, PNG)`: fails per the environment, otherwise
stores the icon at the path, overwriting any previous file. -/
def saveFile (env : FsEnv) (w : World) (path : String) (icon : Icon) :
    Except IoError World :=
  match env.saveErr path with
  | some e => .error e
  | none =>
      .ok { w with files := fun q => if q = path then some icon else w.files q }

/-- The confirmation line `create_icon` prints after a successful save. -/
def genMsg (size : Nat) (output_path : String) : String :=
  "✅ Generated " ++ output_path ++ " (" ++ toString size ++ "x"
    ++ toString size ++ ")"

/-- `create_icon(size, output_path)`: build the image in memory, save it,
then print the confirmation.  Drawing is pure and total; the only fallible
step is the save, whose error is propagated unhandled. -/
def create_icon (env : FsEnv) (size : Nat) (output_path : String)
    (w : World) : Except IoError World := do
  let img := iconImage size
  let w1 ← saveFile env w output_path img
  .ok { w1 with out := w1.out ++ [genMsg size output_path] }

/-- Helper for `ancestors`: walking the characters of the path, emit the
prefix accumulated so far at every path separator and at the end. -/
def ancestorsAux : List Char → List Char → List (List Char)
  | acc, [] => [acc.reverse]
  | acc, c :: rest =>
      if c = '/' then acc.reverse :: ancestorsAux (c :: acc) rest
      else ancestorsAux (c :: acc) rest

/-- Every ancestor path of `p` created by `os.makedirs(p)`, innermost last,
with the empty prefix discarded. -/
def ancestors (p : String) : List String :=
  ((ancestorsAux [] p.toList).map (fun cs => String.mk cs)).filter
    (fun s => s ≠ "")

/-- `os.makedirs(path, exist_ok=True)`: fails per the environment, otherwise
records the directory and all its ancestors as existing. -/
def makedirs (env : FsEnv) (w : World) (path : String) :
    Except IoError World :=
  match env.mkdirErr with
  | some e => .error e
  | none => .ok { w with dirs := ancestors path ++ w.dirs }

/-- The fixed output directory of the script. -/
def output_dir : String := "/home/ubuntu/live-shopping-network/client/public"

/-- `os.path.join(output_dir, "icon-192.png")`. -/
def path192 : String := output_dir ++ "/icon-192.png"

/-- `os.path.join(output_dir, "icon-512.png")`. -/
def path512 : String := output_dir ++ "/icon-512.png"

/-- The final completion line `main` prints. -/
def doneMsg : String := "\n🎉 All PWA icons generated successfully!"

/-- The entry routine `main()`: ensure the output directory exists, generate
the 192 and 512 icons, print the completion message. -/
def main (env : FsEnv) (w : World) : Except IoError World := do
  let w1 ← makedirs env w output_dir
  let w2 ← create_icon env 192 path192 w1
  let w3 ← create_icon env 512 path512 w2
  .ok { w3 with out := w3.out ++ [doneMsg] }

/-- Running the script as a process: exit status 0 on success, and the
unhandled-exception status 1 when an error propagates out of `main`. -/
def run_script (env : FsEnv) (w : World) : World × Nat :=
  match main env w with
  | .ok w1 => (w1, 0)
  | .error _ => (w, 1)

/-- Whether an `Except` outcome is a success. -/
def ranOk : Except IoError World → Bool
  | .ok _ => true
  | .error _ => false

/-- The file at `p` in the world an outcome carries, `none` on error. -/
def resultFiles : Except IoError World → String → Option Icon
  | .ok w, p => w.files p
  | .error _, _ => none

/-- The world after a `create_icon` call, unchanged when the call failed. -/
def afterRun (env : FsEnv) (size : Nat) (p : String) (w : World) : World :=
  match create_icon env size p w with
  | .ok w1 => w1
  | .error _ => w

/-- A path lying inside the fixed output directory. -/
def underDir (p : String) : Prop := ∃ n, p = output_dir ++ "/" ++ n

/-- An environment in which every I/O primitive succeeds. -/
def noErrEnv : FsEnv := ⟨none, fun _ => none⟩

/-- The empty initial world: no directories, no files, no output. -/
def emptyWorld : World := ⟨[], fun _ => none, []⟩

/-- A non-empty world, used to check that prior state does not influence a
render. -/
def demoWorld : World := ⟨["scratch"], fun _ => some (iconImage 7), ["line"]⟩

/-- An environment in which directory creation and every save fail. -/
def failEnv : FsEnv :=
  ⟨some ⟨"cannot create directory"⟩, fun _ => some ⟨"disk full"⟩⟩

/-! Helper lemmas. -/

/-- Reduction of an `Except` bind on a success value. -/
theorem except_bind_ok {α β γ : Type} (a : α) (f : α → Except γ β) :
    (Except.ok a : Except γ α) >>= f = f a := rfl

/-- Reduction of an `Except` bind on an error value. -/
theorem except_bind_error {α β γ : Type} (e : γ) (f : α → Except γ β) :
    (Except.error e : Except γ α) >>= f = .error e := rfl

/-- Successful `create_icon` updates exactly the target path and appends the
confirmation line. -/
theorem create_icon_eq_ok (env : FsEnv) (s : Nat) (p : String) (w : World)
    (h : env.saveErr p = none) :
    create_icon env s p w = .ok
      { dirs := w.dirs
        files := fun q => if q = p then some (iconImage s) else w.files q
        out := w.out ++ [genMsg s p] } := by
  simp [create_icon, saveFile, h, except_bind_ok]

/-- A failing save makes `create_icon` return that very error. -/
theorem create_icon_eq_error (env : FsEnv) (s : Nat) (p : String) (w : World)
    (e : IoError) (h : env.saveErr p = some e) :
    create_icon env s p w = .error e := by
  simp [create_icon, saveFile, h, except_bind_error]

/-- Successful `main` creates the directory chain, writes the two icons and
prints three lines. -/
theorem main_eq_ok (env : FsEnv) (w : World) (h1 : env.mkdirErr = none)
    (h2 : env.saveErr path192 = none) (h3 : env.saveErr path512 = none) :
    main env w = .ok
      { dirs := ancestors output_dir ++ w.dirs
        files := fun q =>
          if q = path512 then some (iconImage 512)
          else if q = path192 then some (iconImage 192) else w.files q
        out := w.out ++ [genMsg 192 path192, genMsg 512 path512, doneMsg] } := by
  simp [main, makedirs, h1, create_icon, saveFile, h2, h3, except_bind_ok]

/-- From a square bound on an integer, interval bounds. -/
theorem sq_le_bound {d a : ℤ} (h : d ^ 2 ≤ a ^ 2) (ha : 0 ≤ a) :
    -a ≤ d ∧ d ≤ a := by
  constructor
  · by_contra hlt
    push_neg at hlt
    nlinarith
  · by_contra hlt
    push_neg at hlt
    nlinarith

/-- A point inside the inscribed ellipse of a box with positive extents lies
within the horizontal bounds of the box. -/
theorem inEllipse_x_bounds (x0 y0 x1 y1 x y : ℤ) (ha : 0 < x1 - x0)
    (hb : 0 < y1 - y0) (h : inEllipse x0 y0 x1 y1 x y = true) :
    x0 ≤ x ∧ x ≤ x1 := by
  simp only [inEllipse, decide_eq_true_eq] at h
  have h1 : ((2 * x - (x0 + x1)) * (y1 - y0)) ^ 2
      ≤ ((x1 - x0) * (y1 - y0)) ^ 2 := by
    nlinarith [sq_nonneg ((2 * y - (y0 + y1)) * (x1 - x0))]
  have hb2 : (0 : ℤ) < (y1 - y0) ^ 2 := by positivity
  have h2 : (2 * x - (x0 + x1)) ^ 2 ≤ (x1 - x0) ^ 2 := by
    by_contra hc
    push_neg at hc
    have := mul_lt_mul_of_pos_right hc hb2
    nlinarith
  obtain ⟨hl, hr⟩ := sq_le_bound h2 (le_of_lt ha)
  constructor
  · linarith
  · linarith

/-- For sizes of at least 9, no corner pixel of the canvas is painted by
any of the three concentric circle fills (all have the form of a square box
inset by some t with 4 t at most the size).  Sizes 7 and 8 genuinely paint
the corner (s - 1, s - 1): the rounded row span of the bottom rows reaches
the last column there, so the bound 9 is tight. -/
theorem ellipse_corner_not_covered (s t : Nat) (f : RGBA) (x y : Nat)
    (hs : 9 ≤ s) (ht : 4 * t ≤ s)
    (hx : x = 0 ∨ x = s - 1) (hy : y = 0 ∨ y = s - 1) :
    coversB (.ellipse t t (s - t) (s - t) f) x y = false := by
  rw [Bool.eq_false_iff]
  intro hcov
  simp only [coversB, ellipseCovers, Bool.and_eq_true, Bool.or_eq_true,
    decide_eq_true_eq] at hcov
  obtain ⟨⟨hv, hr⟩, hl⟩ := hcov
  have hcast : ((s - t : Nat) : ℤ) = (s : ℤ) - t := by omega
  rw [hcast] at hv hr hl
  have hsum : (t : ℤ) + ((s : ℤ) - t) = (s : ℤ) := by ring
  have hBdef : ((s : ℤ) - t) - t = (s : ℤ) - 2 * t := by ring
  rw [hsum, hBdef] at hv hr hl
  have hs9 : (9 : ℤ) ≤ (s : ℤ) := by omega
  have hB0 : (0 : ℤ) < (s : ℤ) - 2 * t := by omega
  have hBle : (s : ℤ) - 2 * t ≤ (s : ℤ) := by omega
  have hq : ((s : ℤ) - 2 * t) ^ 2 ≤ (s : ℤ) ^ 2 := by
    nlinarith [mul_nonneg (sub_nonneg.mpr hBle)
      (show (0 : ℤ) ≤ (s : ℤ) + ((s : ℤ) - 2 * t) by linarith)]
  have hx1 : ((s - 1 : Nat) : ℤ) = (s : ℤ) - 1 := by omega
  have hk1 : (0 : ℤ) ≤ ((s : ℤ) ^ 2 - ((s : ℤ) - 2 * t) ^ 2)
      * ((s : ℤ) - 2 * t) ^ 2 :=
    mul_nonneg (by linarith) (sq_nonneg _)
  rcases hx with rfl | rfl <;> rcases hy with rfl | rfl <;>
    push_cast [hx1] at hv hr hl
  · -- corner (0, 0): the left span bound fails on the row through the top
    rcases hl with h | h
    · nlinarith [mul_pos (show (0 : ℤ) < (s : ℤ) - 1 by linarith) hB0, h]
    · nlinarith [h, hk1,
        mul_nonneg (sq_nonneg ((s : ℤ) - 1)) (sq_nonneg ((s : ℤ) - 2 * t))]
  · -- corner (0, s - 1)
    rcases hl with h | h
    · nlinarith [mul_pos (show (0 : ℤ) < (s : ℤ) - 1 by linarith) hB0, h]
    · have hfac : (0 : ℤ) ≤ ((s : ℤ) - 1) * ((s : ℤ) - 5) :=
        mul_nonneg (by linarith) (by linarith)
      nlinarith [h, hk1,
        mul_nonneg (sq_nonneg ((s : ℤ) - 2 * t)) hfac]
  · -- corner (s - 1, 0)
    rcases hr with h | h
    · nlinarith [mul_pos (show (0 : ℤ) < (s : ℤ) - 3 by linarith) hB0, h]
    · nlinarith [h, hk1,
        mul_pos (mul_pos (show (0 : ℤ) < (s : ℤ) - 3 by linarith)
          (show (0 : ℤ) < (s : ℤ) - 3 by linarith)) (mul_pos hB0 hB0)]
  · -- corner (s - 1, s - 1): tight case, fails only from size 9 on
    rcases hr with h | h
    · nlinarith [mul_pos (show (0 : ℤ) < (s : ℤ) - 3 by linarith) hB0, h]
    · have hfac : (0 : ℤ) ≤ ((s : ℤ) - 9) * ((s : ℤ) - 1) :=
        mul_nonneg (by linarith) (by linarith)
      have key : ((s : ℤ) - 3) ^ 2 * ((s : ℤ) - 2 * t) ^ 2
          ≤ ((s : ℤ) - 2 * t) ^ 2
            * (((s : ℤ) - 2 * t) ^ 2 - ((s : ℤ) - 2) ^ 2) := by
        linarith [h]
      have h2 : ((s : ℤ) - 2 * t) ^ 2 - ((s : ℤ) - 2) ^ 2
          ≤ 4 * (s : ℤ) - 4 := by
        linarith [hq]
      have h4 : (0 : ℤ) < ((s : ℤ) - 2 * t) ^ 2 := by positivity
      have e1 := mul_le_mul_of_nonneg_left h2 (le_of_lt h4)
      have h3 : 4 * (s : ℤ) - 4 < ((s : ℤ) - 3) ^ 2 := by
        linarith [hfac]
      have e2 := mul_lt_mul_of_pos_left h3 h4
      linarith [key, e1, e2]

/-- For sizes of at least 7, no corner pixel lies in the bag rectangle. -/
theorem rect_corner_not_covered (s x y : Nat) (hs : 7 ≤ s)
    (hx : x = 0 ∨ x = s - 1) (hy : y = 0 ∨ y = s - 1) :
    coversB (.rectangle (bag_left s) (bag_top s) (bag_right s)
      (bag_bottom s) white) x y = false := by
  simp only [coversB]
  rw [decide_eq_false_iff_not]
  unfold bag_left bag_top bag_right bag_bottom
  rintro ⟨h1, h2, h3, h4⟩
  rcases hx with rfl | rfl <;> rcases hy with rfl | rfl <;> omega

/-- For sizes of at least 7, no corner pixel lies on the handle arc: below
size 20 the stroke width is 0 and the arc draws nothing, and from size 20 on
the arc is confined to the horizontal extent of its bounding box, which
excludes both canvas edges. -/
theorem arc_corner_not_covered (s x y : Nat) (hs : 7 ≤ s)
    (hx : x = 0 ∨ x = s - 1) (hy : y = 0 ∨ y = s - 1) :
    coversB (.arc (handle_left s) (handle_top s) (handle_right s)
      (bag_top s + handle_height s / 2) 0 180 white (s / 20)) x y = false := by
  by_cases h20 : s < 20
  · have hw : s / 20 = 0 := by omega
    simp [coversB, hw]
  · rw [Bool.eq_false_iff]
    intro hcov
    simp only [coversB, Bool.and_eq_true, Bool.not_eq_true,
      decide_eq_true_eq] at hcov
    obtain ⟨⟨⟨⟨⟨h0, h180⟩, hwpos⟩, hell⟩, hhalf⟩, hinner⟩ := hcov
    have ha : (0 : ℤ) < ((handle_right s : Nat) : ℤ) - (handle_left s : Nat) := by
      simp only [handle_left, handle_right, handle_width]
      omega
    have hb : (0 : ℤ) <
        ((bag_top s + handle_height s / 2 : Nat) : ℤ) - (handle_top s : Nat) := by
      simp only [handle_top, bag_top, handle_height]
      omega
    have hbounds := inEllipse_x_bounds _ _ _ _ _ _ ha hb hell
    obtain ⟨hbl, hbr⟩ := hbounds
    have hbl2 : handle_left s ≤ x := by exact_mod_cast hbl
    have hbr2 : x ≤ handle_right s := by exact_mod_cast hbr
    have e1 : handle_left s = s / 2 - s / 8 := rfl
    have e2 : handle_right s = s / 2 + s / 8 := rfl
    rcases hx with rfl | rfl <;> omega

/-- The world after a successful `create_icon`, in closed form. -/
theorem afterRun_eq_ok (env : FsEnv) (s : Nat) (p : String) (w : World)
    (h : env.saveErr p = none) :
    afterRun env s p w =
      { dirs := w.dirs
        files := fun q => if q = p then some (iconImage s) else w.files q
        out := w.out ++ [genMsg s p] } := by
  unfold afterRun
  rw [create_icon_eq_ok env s p w h]

/-! The claims. -/

/-- C1: for every positive size and every path, a successful `create_icon`
call stores at that path a file in PNG format whose pixel dimensions are
exactly size by size. -/
theorem create_icon_writes_png (env : FsEnv) (s : Nat) (p : String)
    (w : World) (hs : 0 < s) (h : env.saveErr p = none) :
    ranOk (create_icon env s p w) = true ∧
    resultFiles (create_icon env s p w) p = some (iconImage s) ∧
    (iconImage s).width = s ∧ (iconImage s).height = s ∧
    (iconImage s).format = "PNG" := by
  rw [create_icon_eq_ok env s p w h]
  refine ⟨rfl, ?_, rfl, rfl, rfl⟩
  simp [resultFiles]

/-- Witness for C1 at size 192 in an error-free environment. -/
theorem create_icon_writes_png_witness :
    (0 < 192 ∧ noErrEnv.saveErr path192 = none) ∧
    (ranOk (create_icon noErrEnv 192 path192 emptyWorld) = true ∧
      resultFiles (create_icon noErrEnv 192 path192 emptyWorld) path192
        = some (iconImage 192) ∧
      (iconImage 192).width = 192 ∧ (iconImage 192).height = 192 ∧
      (iconImage 192).format = "PNG") :=
  ⟨⟨by decide, rfl⟩,
    create_icon_writes_png noErrEnv 192 path192 emptyWorld (by decide) rfl⟩

/-- C3: `create_icon` is deterministic and idempotent: two successful runs
with the same size and path, from any prior worlds and environments, store
identical file contents at the path, and rerunning on the result changes no
file (the rerun overwrites the same contents). -/
theorem create_icon_deterministic (env1 env2 : FsEnv) (s : Nat) (p : String)
    (w1 w2 : World) (h1 : env1.saveErr p = none)
    (h2 : env2.saveErr p = none) :
    (afterRun env1 s p w1).files p = (afterRun env2 s p w2).files p ∧
    (afterRun env1 s p w1).files p = some (iconImage s) ∧
    (afterRun env1 s p (afterRun env1 s p w1)).files
      = (afterRun env1 s p w1).files := by
  rw [afterRun_eq_ok env1 s p w1 h1, afterRun_eq_ok env2 s p w2 h2]
  rw [afterRun_eq_ok env1 s p _ h1]
  refine ⟨by simp, by simp, ?_⟩
  funext q
  by_cases hq : q = p <;> simp [hq]

/-- Witness for C3: runs from the empty world and from a junk-filled world
agree, and a rerun is a no-op on the file map. -/
theorem create_icon_deterministic_witness :
    (afterRun noErrEnv 192 path192 emptyWorld).files path192
      = (afterRun noErrEnv 192 path192 demoWorld).files path192 ∧
    (afterRun noErrEnv 192 path192 emptyWorld).files path192
      = some (iconImage 192) ∧
    (afterRun noErrEnv 192 path192
        (afterRun noErrEnv 192 path192 emptyWorld)).files
      = (afterRun noErrEnv 192 path192 emptyWorld).files :=
  create_icon_deterministic noErrEnv noErrEnv 192 path192 emptyWorld
    demoWorld rfl rfl

/-- C5: the boundary call with size 1 does not crash: all five drawing
steps are well defined despite the degenerate integer-divided insets, and a
successful call stores a 1 by 1 PNG at the path. -/
theorem size_one_no_crash (env : FsEnv) (p : String) (w : World)
    (h : env.saveErr p = none) :
    (create_icon_ops 1).length = 5 ∧
    ranOk (create_icon env 1 p w) = true ∧
    resultFiles (create_icon env 1 p w) p = some (iconImage 1) ∧
    (iconImage 1).width = 1 ∧ (iconImage 1).height = 1 ∧
    (iconImage 1).format = "PNG" := by
  rw [create_icon_eq_ok env 1 p w h]
  exact ⟨by decide, rfl, by simp [resultFiles], rfl, rfl, rfl⟩

/-- Witness for C5 in an error-free environment. -/
theorem size_one_no_crash_witness :
    noErrEnv.saveErr path192 = none ∧
    ((create_icon_ops 1).length = 5 ∧
      ranOk (create_icon noErrEnv 1 path192 emptyWorld) = true ∧
      resultFiles (create_icon noErrEnv 1 path192 emptyWorld) path192
        = some (iconImage 1) ∧
      (iconImage 1).width = 1 ∧ (iconImage 1).height = 1 ∧
      (iconImage 1).format = "PNG") :=
  ⟨rfl, size_one_no_crash noErrEnv path192 emptyWorld rfl⟩

/-- C6: for every positive size, the first three drawing ops are the purple
circle over the full canvas bounds, the white circle inset by size / 8, and
the purple circle inset by size / 6; and the 192 by 192 output contains the
accent color 9333ea in the outer ring (witnessed at pixel (96, 12)). -/
theorem circle_layers (s : Nat) (hs : 0 < s) :
    (create_icon_ops s)[0]? = some (.ellipse 0 0 s s purple) ∧
    (create_icon_ops s)[1]?
      = some (.ellipse (s / 8) (s / 8) (s - s / 8) (s - s / 8) white) ∧
    (create_icon_ops s)[2]?
      = some (.ellipse (s / 6) (s / 6) (s - s / 6) (s - s / 6) purple) ∧
    pixelAt (create_icon_ops 192) 96 12 = purple :=
  ⟨rfl, rfl, rfl, by decide⟩

/-- Witness for C6 at size 192. -/
theorem circle_layers_witness :
    0 < 192 ∧
    ((create_icon_ops 192)[0]? = some (.ellipse 0 0 192 192 purple) ∧
      (create_icon_ops 192)[1]? = some (.ellipse 24 24 168 168 white) ∧
      (create_icon_ops 192)[2]? = some (.ellipse 32 32 160 160 purple) ∧
      pixelAt (create_icon_ops 192) 96 12 = purple) :=
  ⟨by decide, circle_layers 192 (by decide)⟩

/-- C7: the fourth drawing op is the white bag rectangle with horizontal
and vertical extent [size / 3, 2 size / 3], computed by integer division,
and its covered pixels are exactly those bounds (inclusive). -/
theorem bag_rectangle_bounds (s : Nat) :
    (create_icon_ops s)[3]?
      = some (.rectangle (s / 3) (s / 3) (2 * s / 3) (2 * s / 3) white) ∧
    (∀ x y : Nat,
      coversB (.rectangle (bag_left s) (bag_top s) (bag_right s)
        (bag_bottom s) white) x y = true ↔
      (s / 3 ≤ x ∧ x ≤ 2 * s / 3 ∧ s / 3 ≤ y ∧ y ≤ 2 * s / 3)) := by
  have hm : s * 2 = 2 * s := Nat.mul_comm s 2
  constructor
  · show some (DrawOp.rectangle (bag_left s) (bag_top s) (bag_right s)
      (bag_bottom s) white) = _
    simp [bag_left, bag_top, bag_right, bag_bottom, hm]
  · intro x y
    simp [coversB, bag_left, bag_top, bag_right, bag_bottom, hm]

/-- Witness for C7 at size 192: pixel (64, 128) is covered, and the op is
the rectangle over [64, 128] in both axes. -/
theorem bag_rectangle_bounds_witness :
    coversB (.rectangle (bag_left 192) (bag_top 192) (bag_right 192)
      (bag_bottom 192) white) 64 128 = true ∧
    (create_icon_ops 192)[3]? = some (.rectangle 64 64 128 128 white) :=
  ⟨((bag_rectangle_bounds 192).2 64 128).mpr (by decide),
    (bag_rectangle_bounds 192).1⟩

/-- C8: I/O errors are propagated unchanged, never recovered: a failing
directory creation or save aborts with that very error and the process
exits non-zero, and `create_icon` has no failure mode other than a failing
save. -/
theorem io_error_propagation (env : FsEnv) (s : Nat) (p : String)
    (w : World) (e : IoError) :
    (env.mkdirErr = some e →
      main env w = .error e ∧ (run_script env w).2 = 1) ∧
    (env.saveErr p = some e → create_icon env s p w = .error e) ∧
    (env.mkdirErr = none → env.saveErr path192 = some e →
      main env w = .error e ∧ (run_script env w).2 = 1) ∧
    (∀ e2 : IoError,
      create_icon env s p w = .error e2 → env.saveErr p = some e2) := by
  refine ⟨?_, ?_, ?_, ?_⟩
  · intro h
    have hm : main env w = .error e := by
      simp [main, makedirs, h, except_bind_error]
    exact ⟨hm, by simp [run_script, hm]⟩
  · intro h
    exact create_icon_eq_error env s p w e h
  · intro h0 h1
    have hm : main env w = .error e := by
      simp [main, makedirs, h0, create_icon, saveFile, h1, except_bind_ok,
        except_bind_error]
    exact ⟨hm, by simp [run_script, hm]⟩
  · intro e2 hrun
    cases henv : env.saveErr p with
    | none =>
        rw [create_icon_eq_ok env s p w henv] at hrun
        exact absurd hrun (by simp)
    | some e3 =>
        rw [create_icon_eq_error env s p w e3 henv] at hrun
        injection hrun with h4
        rw [h4]

/-- Witness for C8: in an all-failing environment the first error aborts
`main`, the exit status is 1, and a failing save surfaces from
`create_icon` unchanged. -/
theorem io_error_propagation_witness :
    main failEnv emptyWorld = .error ⟨"cannot create directory"⟩ ∧
    (run_script failEnv emptyWorld).2 = 1 ∧
    create_icon failEnv 192 path192 emptyWorld = .error ⟨"disk full"⟩ := by
  have h1 := (io_error_propagation failEnv 192 path192 emptyWorld
    ⟨"cannot create directory"⟩).1 rfl
  have h2 := (io_error_propagation failEnv 192 path192 emptyWorld
    ⟨"disk full"⟩).2.1 rfl
  exact ⟨h1.1, h1.2, h2⟩

/-- C9: a successful `create_icon` call touches no persistent state except
the file at its own output path: directories are unchanged, every other
path keeps its file, and the only other effect is the one console line. -/
theorem create_icon_frame (env : FsEnv) (s : Nat) (p : String) (w : World)
    (h : env.saveErr p = none) :
    (afterRun env s p w).dirs = w.dirs ∧
    (∀ q, q ≠ p → (afterRun env s p w).files q = w.files q) ∧
    (afterRun env s p w).out = w.out ++ [genMsg s p] := by
  rw [afterRun_eq_ok env s p w h]
  exact ⟨rfl, fun q hq => by simp [hq], rfl⟩

/-- Witness for C9: rendering the 192 icon into a non-empty world leaves
the 512 path and the directory list alone. -/
theorem create_icon_frame_witness :
    (afterRun noErrEnv 192 path192 demoWorld).dirs = demoWorld.dirs ∧
    (afterRun noErrEnv 192 path192 demoWorld).files path512
      = demoWorld.files path512 ∧
    (afterRun noErrEnv 192 path192 demoWorld).out
      = demoWorld.out ++ [genMsg 192 path192] := by
  have h := create_icon_frame noErrEnv 192 path192 demoWorld rfl
  exact ⟨h.1, h.2.1 path512 (by decide), h.2.2⟩

/-- C2: a successful run of the entry routine from a state where the output
directory does not exist exits with status 0, creates the directory and all
its missing parents, writes the 192 and 512 icons there, and the directory
then contains exactly those two files. -/
theorem main_generates_icons (env : FsEnv) (w : World)
    (h1 : env.mkdirErr = none) (h2 : env.saveErr path192 = none)
    (h3 : env.saveErr path512 = none) (hdir : output_dir ∉ w.dirs)
    (hfiles : ∀ p, underDir p → w.files p = none) :
    (run_script env w).2 = 0 ∧
    output_dir ∈ (run_script env w).1.dirs ∧
    (∀ d, d ∈ ancestors output_dir → d ∈ (run_script env w).1.dirs) ∧
    (run_script env w).1.files path192 = some (iconImage 192) ∧
    (run_script env w).1.files path512 = some (iconImage 512) ∧
    (iconImage 192).width = 192 ∧ (iconImage 192).height = 192 ∧
    (iconImage 512).width = 512 ∧ (iconImage 512).height = 512 ∧
    (iconImage 192).format = "PNG" ∧ (iconImage 512).format = "PNG" ∧
    (∀ p, underDir p →
      (((run_script env w).1.files p).isSome = true
        ↔ (p = path192 ∨ p = path512))) := by
  have hm := main_eq_ok env w h1 h2 h3
  have hrs : run_script env w =
      ({ dirs := ancestors output_dir ++ w.dirs
         files := fun q =>
           if q = path512 then some (iconImage 512)
           else if q = path192 then some (iconImage 192) else w.files q
         out := w.out ++ [genMsg 192 path192, genMsg 512 path512, doneMsg] },
        0) := by
    simp [run_script, hm]
  rw [hrs]
  refine ⟨rfl, ?_, ?_, ?_, ?_, rfl, rfl, rfl, rfl, rfl, rfl, ?_⟩
  · exact List.mem_append_left _ (by decide)
  · intro d hd
    exact List.mem_append_left _ hd
  · show (if path192 = path512 then some (iconImage 512)
      else if path192 = path192 then some (iconImage 192)
      else w.files path192) = some (iconImage 192)
    rw [if_neg (by decide), if_pos rfl]
  · show (if path512 = path512 then some (iconImage 512)
      else if path512 = path192 then some (iconImage 192)
      else w.files path512) = some (iconImage 512)
    rw [if_pos rfl]
  · intro p hp
    show ((if p = path512 then some (iconImage 512)
      else if p = path192 then some (iconImage 192)
      else w.files p).isSome = true ↔ (p = path192 ∨ p = path512))
    by_cases hp5 : p = path512
    · rw [if_pos hp5]
      simp [hp5]
    · rw [if_neg hp5]
      by_cases hp1 : p = path192
      · rw [if_pos hp1]
        simp [hp1]
      · rw [if_neg hp1, hfiles p hp]
        simp [hp1, hp5]

/-- Witness for C2: running in an error-free environment from the empty
world succeeds with status 0, both icons exist, and an unrelated path in
the directory holds no file. -/
theorem main_generates_icons_witness :
    (run_script noErrEnv emptyWorld).2 = 0 ∧
    (run_script noErrEnv emptyWorld).1.files path192
      = some (iconImage 192) ∧
    (run_script noErrEnv emptyWorld).1.files path512
      = some (iconImage 512) ∧
    ((run_script noErrEnv emptyWorld).1.files
      (output_dir ++ "/nope.png")).isSome = false := by
  have h := main_generates_icons noErrEnv emptyWorld rfl rfl rfl
    (by simp [emptyWorld]) (fun p _ => rfl)
  obtain ⟨hA, hB, hC, hD, hE, _, _, _, _, _, _, hL⟩ := h
  refine ⟨hA, hD, hE, ?_⟩
  have hiff := hL (output_dir ++ "/nope.png") ⟨"nope.png", rfl⟩
  have hne : ¬(output_dir ++ "/nope.png" = path192
      ∨ output_dir ++ "/nope.png" = path512) := by decide
  cases hio : ((run_script noErrEnv emptyWorld).1.files
      (output_dir ++ "/nope.png")).isSome with
  | false => rfl
  | true => exact absurd (hiff.mp hio) hne

/-- C4 counterexample: at size 192 the handle arc op of the program covers
pixel (96, 80), which lies strictly below the line y = 192 / 3 = 64, so the
arc does not lie above the bag rectangle; and at size 12 the arc box width
2 * (12 / 8) = 2 differs from 12 / 4 = 3. -/
theorem handle_arc_cex :
    (create_icon_ops 192)[4]? = some (.arc 72 48 120 80 0 180 white 9) ∧
    coversB (.arc 72 48 120 80 0 180 white 9) 96 80 = true ∧
    192 / 3 < 80 ∧
    handle_right 12 - handle_left 12 ≠ 12 / 4 := by decide

/-- C4 amended: the fifth drawing op is a white arc of sweep 0 to 180
degrees with stroke width size / 20, horizontally centered, its box
extending size / 8 to each side of the center; under the PIL angle
convention that sweep is the lower half-ellipse, so every pixel it covers
lies at or below the line y = size / 3 (at or inside the top edge of the
bag rectangle), not above it. -/
theorem handle_arc_lower_half (s : Nat) :
    (create_icon_ops s)[4]? = some (.arc (handle_left s) (handle_top s)
      (handle_right s) (bag_top s + handle_height s / 2) 0 180 white
      (s / 20)) ∧
    handle_left s + handle_right s = 2 * (s / 2) ∧
    handle_right s - handle_left s = 2 * (s / 8) ∧
    (∀ x y : Nat,
      coversB (.arc (handle_left s) (handle_top s) (handle_right s)
        (bag_top s + handle_height s / 2) 0 180 white (s / 20)) x y = true →
      s / 3 ≤ y) := by
  refine ⟨rfl, ?_, ?_, ?_⟩
  · simp only [handle_left, handle_right, handle_width]
    omega
  · simp only [handle_left, handle_right, handle_width]
    omega
  · intro x y hcov
    simp only [coversB, Bool.and_eq_true, decide_eq_true_eq] at hcov
    obtain ⟨⟨⟨⟨⟨h0, h180⟩, hwpos⟩, hell⟩, hhalf⟩, hinner⟩ := hcov
    simp only [handle_top, bag_top, handle_height] at hhalf
    omega

/-- Witness for C4 amended, at size 192 and the covered pixel (96, 80). -/
theorem handle_arc_lower_half_witness :
    handle_left 192 + handle_right 192 = 2 * (192 / 2) ∧ 192 / 3 ≤ 80 :=
  ⟨(handle_arc_lower_half 192).2.1,
    (handle_arc_lower_half 192).2.2.2 96 80 (by decide)⟩

/-- C10 counterexample: sizes 3, 7 and 8 all exceed 2, yet the corner
pixel (size - 1, size - 1) of their outputs is not transparent: at size 3
the bag rectangle covers it, and at sizes 7 and 8 the rounded row spans of
the circle fills reach the corner. -/
theorem corner_pixels_cex :
    (2 < 3 ∧ (pixelAt (create_icon_ops 3) 2 2).a ≠ 0) ∧
    (2 < 7 ∧ (pixelAt (create_icon_ops 7) 6 6).a ≠ 0) ∧
    (2 < 8 ∧ (pixelAt (create_icon_ops 8) 7 7).a ≠ 0) := by decide

/-- C10 amended: for every size of at least 9, the four corner pixels of
the output remain fully transparent, every drawn shape avoiding them, so
the output is never fully opaque; for sizes 3 through 8 the corner
(size - 1, size - 1) is painted. -/
theorem corner_pixels_transparent (s x y : Nat) (hs : 9 ≤ s)
    (hx : x = 0 ∨ x = s - 1) (hy : y = 0 ∨ y = s - 1) :
    pixelAt (create_icon_ops s) x y = transparentColor := by
  have h1 : coversB (.ellipse 0 0 s s purple) x y = false := by
    simpa using ellipse_corner_not_covered s 0 purple x y hs (by omega) hx hy
  have h2 : coversB (.ellipse (margin s) (margin s) (s - margin s)
      (s - margin s) white) x y = false :=
    ellipse_corner_not_covered s (margin s) white x y hs
      (by simp only [margin]; omega) hx hy
  have h3 : coversB (.ellipse (margin2 s) (margin2 s) (s - margin2 s)
      (s - margin2 s) purple) x y = false :=
    ellipse_corner_not_covered s (margin2 s) purple x y hs
      (by simp only [margin2]; omega) hx hy
  have h4 := rect_corner_not_covered s x y (by omega) hx hy
  have h5 := arc_corner_not_covered s x y (by omega) hx hy
  simp [pixelAt, create_icon_ops, h1, h2, h3, h4, h5]

/-- Witness for C10 amended, at size 9 and corner (0, 8). -/
theorem corner_pixels_transparent_witness :
    9 ≤ 9 ∧ pixelAt (create_icon_ops 9) 0 8 = transparentColor :=
  ⟨by decide, corner_pixels_transparent 9 0 8 (by decide) (Or.inl rfl)
    (Or.inr rfl)⟩

end LiveShoppingIcons
